import Mathlib

set_option maxHeartbeats 1000000

/-!
Verification of the `vercel-backend` retail-analytics service (src/index.js)
against its natural-language specification.

The JavaScript source is shallowly embedded: JS strings are `List Char`,
the two regular expressions of `extractSql` are modelled by explicit
leftmost-first lazy scanners, the SQLite store is a record of tables, the
two OpenAI completion calls and the store execution are oracles supplied in
an environment record, and the `/api/analyze` handler is a pure function
from that environment and the request body to an optional HTTP result
(`none` models a request whose awaited promise never settles, so no
response is ever sent).
-/

namespace VercelBackend

/-- A JS string, embedded as its list of characters. -/
def strToL (s : String) : List Char := s.data

/-- Index of the first occurrence of `pat` as a contiguous sublist of `s`
(`String.prototype.indexOf` / the start of a regex literal match). -/
def firstIndexOf (pat : List Char) : List Char → Option Nat
  | [] => if pat.isPrefixOf ([] : List Char) then some 0 else none
  | c :: t =>
    if pat.isPrefixOf (c :: t) then some 0
    else (firstIndexOf pat t).map (· + 1)

/-- JS `String.prototype.includes(pat)`. -/
def containsSub (pat s : List Char) : Bool := (firstIndexOf pat s).isSome

/-- Case-insensitive prefix test: `pat` (already lower-case) is a prefix of
`s` once `s` is lower-cased, as under a regex `i` flag (ASCII folding). -/
def ciPrefix (pat s : List Char) : Bool := pat.isPrefixOf (s.map Char.toLower)

/-- JS line terminators, which `.` does not match without the `s` flag. -/
def isLineTerm (c : Char) : Bool :=
  c = '\n' || c = '\r' || c = Char.ofNat 0x2028 || c = Char.ofNat 0x2029

/-- Whitespace removed by `String.prototype.trim`. -/
def isJsWhitespace (c : Char) : Bool :=
  c = ' ' || c = '\t' || c = '\n' || c = '\r' ||
  c = Char.ofNat 0x0b || c = Char.ofNat 0x0c || c = Char.ofNat 0xa0 ||
  c = Char.ofNat 0x1680 ||
  (Char.ofNat 0x2000 ≤ c && c ≤ Char.ofNat 0x200a) ||
  c = Char.ofNat 0x2028 || c = Char.ofNat 0x2029 ||
  c = Char.ofNat 0x202f || c = Char.ofNat 0x205f ||
  c = Char.ofNat 0x3000 || c = Char.ofNat 0xfeff

/-- JS `String.prototype.trim`. -/
def jsTrim (s : List Char) : List Char :=
  ((s.dropWhile isJsWhitespace).reverse.dropWhile isJsWhitespace).reverse

/-! Model of the first regex of `extractSql`: fenced `sql` code block with a lazy capture group. -/

/-- The literal opening fence `"```sql\n"` of the first regex. -/
def fenceOpen : List Char := strToL "```sql\n"

/-- The literal closing part `"\n```"` of the first regex. -/
def fenceClose : List Char := strToL "\n```"

/-- Try the fenced-SQL pattern anchored at the start of `s`: the lazy group
`[\s\S]*?` ends at the earliest following occurrence of the closing fence.
Returns `(whole match, captured group)`. -/
def fencedHere (s : List Char) : Option (List Char × List Char) :=
  if fenceOpen.isPrefixOf s then
    let rest := s.drop fenceOpen.length
    match firstIndexOf fenceClose rest with
    | some j => some (fenceOpen ++ rest.take (j + fenceClose.length), rest.take j)
    | none => none
  else none

/-- Leftmost match of the fenced-SQL pattern anywhere in the text, as
`String.prototype.match` finds it. -/
def fencedMatch : List Char → Option (List Char × List Char)
  | [] => none
  | c :: t =>
    match fencedHere (c :: t) with
    | some r => some r
    | none => fencedMatch t

/-! Model of the second regex of `extractSql`: `SELECT .*?FROM`, case-insensitive, lazy. -/

/-- The fixed prefix `"select "` of the second regex, lower-cased. -/
def selectPat : List Char := strToL "select "

/-- The fixed suffix `"from"` of the second regex, lower-cased. -/
def fromPat : List Char := strToL "from"

/-- The lazy `.*?FROM` tail: the smallest offset `j` at which `FROM` matches
case-insensitively, with every skipped character matchable by `.`
(no line terminators). -/
def findFromLazy : List Char → Option Nat
  | [] => none
  | c :: t =>
    if ciPrefix fromPat (c :: t) then some 0
    else if isLineTerm c then none
    else (findFromLazy t).map (· + 1)

/-- Try `SELECT .*?FROM` (case-insensitive) anchored at the start of `s`;
on success return the whole matched substring. -/
def selectHere (s : List Char) : Option (List Char) :=
  if ciPrefix selectPat s then
    match findFromLazy (s.drop selectPat.length) with
    | some j => some (s.take (selectPat.length + j + fromPat.length))
    | none => none
  else none

/-- Leftmost match of `SELECT .*?FROM` (case-insensitive) in the text. -/
def selectMatch : List Char → Option (List Char)
  | [] => none
  | c :: t =>
    match selectHere (c :: t) with
    | some r => some r
    | none => selectMatch t

/-- Model of `extractSql` from src/index.js: first regex wins if it matches at all;
`sqlMatch[1] || sqlMatch[0]` means an empty captured group falls back to
the whole match (and the inline regex has no group, so its whole match is
returned). A null/empty input returns null. -/
def extractSql (text : List Char) : Option (List Char) :=
  if text = [] then none
  else
    match fencedMatch text with
    | some (whole, grp) => some (if grp = [] then whole else grp)
    | none => selectMatch text

/-- Model of `suggestChartType` from src/index.js. -/
def suggestChartType (insights : List Char) : List Char :=
  if insights = [] then strToL "bar"
  else if containsSub (strToL "trend") insights then strToL "line"
  else if containsSub (strToL "compare") insights then strToL "bar"
  else if containsSub (strToL "percentage") insights ||
          containsSub (strToL "proportion") insights then strToL "pie"
  else strToL "bar"

/-- The handler check `generatedSql.toLowerCase().includes("select")` (the
source writes the literal with single quotes). -/
def hasSelectCI (s : List Char) : Bool :=
  containsSub (strToL "select") (s.map Char.toLower)

/-! Model of the SQLite store and `initializeDatabase`. -/

/-- A row of the `customers` table (`id TEXT PRIMARY KEY`). -/
structure CustomerRow where
  id : List Char
  name : List Char
  email : List Char
  region : List Char
  signup_date : List Char
deriving DecidableEq

/-- A row of the `products` table (`id TEXT PRIMARY KEY`). -/
structure ProductRow where
  id : List Char
  name : List Char
  category : List Char
  price : Rat
  cost : Rat
deriving DecidableEq

/-- A row of the `orders` table (`id TEXT PRIMARY KEY`). -/
structure OrderRow where
  id : List Char
  customer_id : List Char
  order_date : List Char
  total_amount : Rat
  status : List Char
deriving DecidableEq

/-- A row of the `order_items` table; the table declares no key and no
uniqueness constraint. -/
structure OrderItemRow where
  order_id : List Char
  product_id : List Char
  quantity : Int
  price : Rat
deriving DecidableEq

/-- The SQLite store: which tables exist and the rows of each table, in
insertion order. -/
structure Store where
  tables : List (List Char)
  customers : List CustomerRow
  products : List ProductRow
  orders : List OrderRow
  order_items : List OrderItemRow
deriving DecidableEq

/-- An empty `retail.db` as sqlite3 creates it on first open. -/
def emptyStore : Store := ⟨[], [], [], [], []⟩

/-- Statement `CREATE TABLE IF NOT EXISTS name (...)`. -/
def createTableIfNotExists (s : Store) (n : List Char) : Store :=
  if s.tables.any (fun t => t == n) then s
  else { s with tables := s.tables ++ [n] }

/-- An `INSERT OR IGNORE` of one row into a table whose key is `key`: SQLite
skips the row exactly when the insert would violate the PRIMARY KEY
constraint, i.e. when a row with the same key already exists. -/
def insertOrIgnoreKeyed {α : Type} (key : α → List Char) (t : List α) (r : α) :
    List α :=
  if t.any (fun x => key x == key r) then t else t ++ [r]

/-- A multi-row `INSERT OR IGNORE ... VALUES r1, r2, ...` into a keyed
table: the rows are attempted left to right. -/
def insertAllKeyed {α : Type} (key : α → List Char) (t : List α) (rows : List α) :
    List α :=
  rows.foldl (insertOrIgnoreKeyed key) t

/-- An `INSERT OR IGNORE` into `order_items`: the table has no key or unique
constraint, so `OR IGNORE` never fires and every row is appended. -/
def insertAllUnkeyed {α : Type} (t : List α) (rows : List α) : List α :=
  t ++ rows

/-- The seed rows of `customers` from `initializeDatabase`. -/
def seedCustomers : List CustomerRow :=
  [⟨strToL "C001", strToL "John Smith", strToL "john@example.com", strToL "North", strToL "2023-01-15"⟩,
   ⟨strToL "C002", strToL "Sarah Johnson", strToL "sarah@example.com", strToL "South", strToL "2023-02-20"⟩]

/-- The seed rows of `products` from `initializeDatabase`. -/
def seedProducts : List ProductRow :=
  [⟨strToL "P001", strToL "Wireless Headphones", strToL "Electronics", 99.99, 45.00⟩,
   ⟨strToL "P002", strToL "Smart Watch", strToL "Electronics", 199.99, 120.00⟩,
   ⟨strToL "P003", strToL "Cotton T-Shirt", strToL "Apparel", 29.99, 12.50⟩]

/-- The seed rows of `orders` from `initializeDatabase`. -/
def seedOrders : List OrderRow :=
  [⟨strToL "O001", strToL "C001", strToL "2023-05-15", 129.98, strToL "Completed"⟩,
   ⟨strToL "O002", strToL "C002", strToL "2023-05-16", 199.99, strToL "Completed"⟩]

/-- The seed rows of `order_items` from `initializeDatabase`. -/
def seedOrderItems : List OrderItemRow :=
  [⟨strToL "O001", strToL "P001", 1, 99.99⟩,
   ⟨strToL "O001", strToL "P003", 1, 29.99⟩,
   ⟨strToL "O002", strToL "P002", 1, 199.99⟩]

/-- The four `CREATE TABLE IF NOT EXISTS` statements of
`initializeDatabase`, in source order. -/
def createSeedTables (s : Store) : Store :=
  createTableIfNotExists
    (createTableIfNotExists
      (createTableIfNotExists
        (createTableIfNotExists s (strToL "customers"))
        (strToL "products"))
      (strToL "orders"))
    (strToL "order_items")

/-- The four `INSERT OR IGNORE` statements of `initializeDatabase`, in
source order; `order_items` has no key, so its rows are appended. -/
def insertSeedData (s : Store) : Store :=
  { s with
    customers := insertAllKeyed CustomerRow.id s.customers seedCustomers,
    products := insertAllKeyed ProductRow.id s.products seedProducts,
    orders := insertAllKeyed OrderRow.id s.orders seedOrders,
    order_items := insertAllUnkeyed s.order_items seedOrderItems }

/-- Model of `initializeDatabase` from src/index.js: four `CREATE TABLE IF NOT
EXISTS` statements followed by four `INSERT OR IGNORE` statements, run in
order under `db.serialize`. -/
def initializeDatabase (s : Store) : Store :=
  insertSeedData (createSeedTables s)

/-! Model of `getSchemaInfo`. -/

/-- One column of `PRAGMA table_info`. -/
structure ColumnInfo where
  name : List Char
  type : List Char
deriving DecidableEq

/-- A table as the store catalog reports it: its name plus its declared
columns. -/
structure TableMeta where
  name : List Char
  columns : List ColumnInfo
deriving DecidableEq

/-- One entry `{table, columns}` of the schema info. -/
structure SchemaEntry where
  table : List Char
  columns : List ColumnInfo
deriving DecidableEq

/-- The `tables.forEach` loop of `getSchemaInfo`: each per-table callback
pushes its entry, increments `tablesProcessed`, and resolves the promise
when the counter equals `tables.length`. If the loop body never runs, no
callback ever resolves and the promise never settles (`none`). -/
def schemaLoop : List TableMeta → List SchemaEntry → Nat → Nat →
    Option (List SchemaEntry)
  | [], _, _, _ => none
  | t :: rest, acc, processed, total =>
    let acc2 := acc ++ [⟨t.name, t.columns⟩]
    let processed2 := processed + 1
    if processed2 = total then some acc2
    else schemaLoop rest acc2 processed2 total

/-- Model of `getSchemaInfo` from src/index.js, as the settlement value of its
promise: `some info` when the promise resolves, `none` when it never
settles. -/
def getSchemaInfo (tables : List TableMeta) : Option (List SchemaEntry) :=
  schemaLoop tables [] 0 tables.length

/-! Model of the `/api/analyze` handler. -/

/-- A JS `Error`: its `message` and its `stack`. -/
structure JsError where
  msg : List Char
  stack : List Char
deriving DecidableEq

/-- A result row as `db.all` returns it: column name/value pairs. -/
def Row : Type := List (List Char × List Char)

instance : DecidableEq Row := by
  unfold Row
  infer_instance

/-- The JSON body of the `{sql, data, insights, chartType}` responses;
`sql` and `chartType` are `null` on the refusal path. -/
structure AnalyzeBody where
  sql : Option (List Char)
  data : List Row
  insights : List Char
  chartType : Option (List Char)
deriving DecidableEq

/-- A response body: either `{error, details?}` or an analyze body. -/
inductive RespBody where
  | err (msg : List Char) (details : Option (List Char))
  | ok (body : AnalyzeBody)
deriving DecidableEq

/-- An HTTP response: status code plus JSON body. -/
structure Response where
  status : Nat
  body : RespBody
deriving DecidableEq

/-- The observable outcome of one handled request: the response sent plus
which external calls were performed while handling it. -/
structure HandlerResult where
  response : Response
  schemaFetched : Bool
  sqlCallMade : Bool
  storeQueried : Bool
  insightCallMade : Bool
deriving DecidableEq

/-- The environment of one request: the run mode, the store catalog, and
oracles for the two completion calls and for `db.all` on the generated
SQL. An `Except.error` models a rejected promise. -/
structure Env where
  devMode : Bool
  storeTables : List TableMeta
  sqlCompletion : Except JsError (List Char)
  storeExec : List Char → Except JsError (List Row)
  insightCompletion : Except JsError (List Char)

/-- The refusal sentinel the handler looks for with `includes`. -/
def refusalSentinel : List Char := strToL "Please ask about"

/-- The fixed 400 validation message. -/
def validationMsg : List Char := strToL "Please ask a complete business question"

/-- The value `new Error("Error executing query")` thrown when `db.all`
rejects: its message and stack are fixed and independent of the error the
store produced. -/
def queryExecError : JsError :=
  ⟨strToL "Error executing query", strToL "Error: Error executing query"⟩

/-- The validation check `!question || question.trim().length < 3`. -/
def validationFails : Option (List Char) → Bool
  | none => true
  | some q => q.isEmpty || decide ((jsTrim q).length < 3)

/-- Whether the handler reaches `db.all`: generated SQL is truthy and its
lower-casing contains `select`. -/
def shouldExecute : Option (List Char) → Bool
  | none => false
  | some s => hasSelectCI s

/-- The query-execution step: skipped (empty rows) unless `shouldExecute`;
a store rejection is mapped to `new Error("Error executing query")`. -/
def execQuery (env : Env) (gen : Option (List Char)) : Except JsError (List Row) :=
  match gen with
  | none => Except.ok []
  | some s =>
    if hasSelectCI s then
      match env.storeExec s with
      | Except.error _ => Except.error queryExecError
      | Except.ok rows => Except.ok rows
    else Except.ok []

/-- The catch-all of the handler: 500 carrying the message of the error,
and its stack as `details` only in development mode. -/
def fault500 (dev : Bool) (e : JsError) : Response :=
  ⟨500, RespBody.err e.msg (if dev then some e.stack else none)⟩

/-- The `POST /api/analyze` handler from src/index.js, as a function of
the request environment and the `question` field. `none` means the request
never receives a response (an awaited promise that never settles). -/
def handleAnalyze (env : Env) (question : Option (List Char)) :
    Option HandlerResult :=
  if validationFails question then
    some ⟨⟨400, RespBody.err validationMsg none⟩, false, false, false, false⟩
  else
    match getSchemaInfo env.storeTables with
    | none => none
    | some _schema =>
      match env.sqlCompletion with
      | Except.error e => some ⟨fault500 env.devMode e, true, true, false, false⟩
      | Except.ok responseText =>
        if containsSub refusalSentinel responseText then
          some ⟨⟨200, RespBody.ok ⟨none, [], responseText, none⟩⟩,
                true, true, false, false⟩
        else
          match execQuery env (extractSql responseText) with
          | Except.error e =>
            some ⟨fault500 env.devMode e, true, true,
                  shouldExecute (extractSql responseText), false⟩
          | Except.ok data =>
            match env.insightCompletion with
            | Except.error e =>
              some ⟨fault500 env.devMode e, true, true,
                    shouldExecute (extractSql responseText), true⟩
            | Except.ok insights =>
              some ⟨⟨200, RespBody.ok ⟨extractSql responseText, data, insights,
                          some (suggestChartType insights)⟩⟩,
                    true, true, shouldExecute (extractSql responseText), true⟩

/-! Lemmas about table creation and seeding. -/

/-- An `INSERT OR IGNORE` into a keyed table is a no-op when a row with the
same key is already present. -/
theorem insertOrIgnoreKeyed_noop {α : Type} (key : α → List Char) (t : List α)
    (r : α) (h : t.any (fun x => key x == key r) = true) :
    insertOrIgnoreKeyed key t r = t := by
  simp only [insertOrIgnoreKeyed, h, if_true]

/-- After an `INSERT OR IGNORE` of `r`, a row with the key of `r` is present. -/
theorem any_insertOrIgnoreKeyed_self {α : Type} (key : α → List Char)
    (t : List α) (r : α) :
    (insertOrIgnoreKeyed key t r).any (fun x => key x == key r) = true := by
  unfold insertOrIgnoreKeyed
  by_cases h : t.any (fun x => key x == key r) = true
  · simp [h]
  · simp [h, List.any_append]

/-- An `INSERT OR IGNORE` preserves any row predicate already satisfied. -/
theorem any_insertOrIgnoreKeyed_mono {α : Type} (key : α → List Char)
    (t : List α) (r : α) (p : α → Bool) (h : t.any p = true) :
    (insertOrIgnoreKeyed key t r).any p = true := by
  unfold insertOrIgnoreKeyed
  split
  · exact h
  · simp [List.any_append, h]

/-- A multi-row `INSERT OR IGNORE` preserves any row predicate already
satisfied. -/
theorem any_insertAllKeyed_mono {α : Type} (key : α → List Char)
    (rows : List α) (t : List α) (p : α → Bool) (h : t.any p = true) :
    (insertAllKeyed key t rows).any p = true := by
  induction rows generalizing t with
  | nil => exact h
  | cons a rest ih =>
    exact ih (insertOrIgnoreKeyed key t a)
      (any_insertOrIgnoreKeyed_mono key t a p h)

/-- After a multi-row `INSERT OR IGNORE`, every inserted key is present. -/
theorem any_insertAllKeyed_mem {α : Type} (key : α → List Char) :
    ∀ (rows : List α) (t : List α) (r : α), r ∈ rows →
      (insertAllKeyed key t rows).any (fun x => key x == key r) = true
  | [], _, _, hr => nomatch hr
  | a :: rest, t, r, hr => by
    rcases List.mem_cons.mp hr with h | h
    · rw [h]
      exact any_insertAllKeyed_mono key rest _ _
        (any_insertOrIgnoreKeyed_self key t a)
    · exact any_insertAllKeyed_mem key rest (insertOrIgnoreKeyed key t a) r h

/-- A multi-row `INSERT OR IGNORE` is a no-op when the key of every row is
already present. -/
theorem insertAllKeyed_noop {α : Type} (key : α → List Char)
    (rows : List α) (t : List α)
    (h : ∀ r ∈ rows, t.any (fun x => key x == key r) = true) :
    insertAllKeyed key t rows = t := by
  induction rows with
  | nil => rfl
  | cons a rest ih =>
    have ha := h a (List.mem_cons_self a rest)
    show insertAllKeyed key (insertOrIgnoreKeyed key t a) rest = t
    rw [insertOrIgnoreKeyed_noop key t a ha]
    exact ih (fun r hr => h r (List.mem_cons_of_mem a hr))

/-- `CREATE TABLE IF NOT EXISTS` is a no-op when the table exists. -/
theorem createTableIfNotExists_noop (s : Store) (n : List Char)
    (h : s.tables.any (fun t => t == n) = true) :
    createTableIfNotExists s n = s := by
  simp only [createTableIfNotExists, h, if_true]

/-- After `CREATE TABLE IF NOT EXISTS n`, table `n` exists. -/
theorem any_createTableIfNotExists_self (s : Store) (n : List Char) :
    (createTableIfNotExists s n).tables.any (fun t => t == n) = true := by
  unfold createTableIfNotExists
  by_cases h : s.tables.any (fun t => t == n) = true
  · simp [h]
  · simp [h, List.any_append]

/-- `CREATE TABLE IF NOT EXISTS` preserves existing tables. -/
theorem any_createTableIfNotExists_mono (s : Store) (n m : List Char)
    (h : s.tables.any (fun t => t == m) = true) :
    (createTableIfNotExists s n).tables.any (fun t => t == m) = true := by
  unfold createTableIfNotExists
  split
  · exact h
  · simp [List.any_append, h]

/-- On a store where all four tables exist and the key of every keyed seed
row is already present, `initializeDatabase` only appends the unkeyed
`order_items` seed rows. -/
theorem initializeDatabase_of_initialized (u : Store)
    (h1 : u.tables.any (fun t => t == strToL "customers") = true)
    (h2 : u.tables.any (fun t => t == strToL "products") = true)
    (h3 : u.tables.any (fun t => t == strToL "orders") = true)
    (h4 : u.tables.any (fun t => t == strToL "order_items") = true)
    (hc : ∀ r ∈ seedCustomers, u.customers.any (fun x => x.id == r.id) = true)
    (hp : ∀ r ∈ seedProducts, u.products.any (fun x => x.id == r.id) = true)
    (ho : ∀ r ∈ seedOrders, u.orders.any (fun x => x.id == r.id) = true) :
    initializeDatabase u = { u with order_items := u.order_items ++ seedOrderItems } := by
  unfold initializeDatabase createSeedTables
  rw [createTableIfNotExists_noop u _ h1, createTableIfNotExists_noop u _ h2,
    createTableIfNotExists_noop u _ h3, createTableIfNotExists_noop u _ h4]
  unfold insertSeedData insertAllUnkeyed
  rw [insertAllKeyed_noop CustomerRow.id seedCustomers u.customers hc,
    insertAllKeyed_noop ProductRow.id seedProducts u.products hp,
    insertAllKeyed_noop OrderRow.id seedOrders u.orders ho]

/-- After one `initializeDatabase`, all four tables exist. -/
theorem initializeDatabase_tables_exist (s : Store) :
    ((initializeDatabase s).tables.any (fun t => t == strToL "customers") = true) ∧
    ((initializeDatabase s).tables.any (fun t => t == strToL "products") = true) ∧
    ((initializeDatabase s).tables.any (fun t => t == strToL "orders") = true) ∧
    ((initializeDatabase s).tables.any (fun t => t == strToL "order_items") = true) := by
  refine ⟨?_, ?_, ?_, ?_⟩
  · exact any_createTableIfNotExists_mono _ _ _
      (any_createTableIfNotExists_mono _ _ _
        (any_createTableIfNotExists_mono _ _ _
          (any_createTableIfNotExists_self s (strToL "customers"))))
  · exact any_createTableIfNotExists_mono _ _ _
      (any_createTableIfNotExists_mono _ _ _
        (any_createTableIfNotExists_self _ (strToL "products")))
  · exact any_createTableIfNotExists_mono _ _ _
      (any_createTableIfNotExists_self _ (strToL "orders"))
  · exact any_createTableIfNotExists_self _ (strToL "order_items")

/-- After one `initializeDatabase`, the key of every keyed seed row is
present in its table. -/
theorem initializeDatabase_seeds_present (s : Store) :
    (∀ r ∈ seedCustomers, (initializeDatabase s).customers.any (fun x => x.id == r.id) = true) ∧
    (∀ r ∈ seedProducts, (initializeDatabase s).products.any (fun x => x.id == r.id) = true) ∧
    (∀ r ∈ seedOrders, (initializeDatabase s).orders.any (fun x => x.id == r.id) = true) := by
  refine ⟨?_, ?_, ?_⟩
  · intro r hr
    exact any_insertAllKeyed_mem CustomerRow.id seedCustomers _ r hr
  · intro r hr
    exact any_insertAllKeyed_mem ProductRow.id seedProducts _ r hr
  · intro r hr
    exact any_insertAllKeyed_mem OrderRow.id seedOrders _ r hr

/-- C8 counterexample: the startup sequence is not idempotent: run
twice from a fresh store, the second run changes the store (the three
`order_items` seed rows are appended again, giving six rows). -/
theorem initializeDatabase_not_idempotent :
    initializeDatabase (initializeDatabase emptyStore) ≠ initializeDatabase emptyStore ∧
    (initializeDatabase (initializeDatabase emptyStore)).order_items.length = 6 ∧
    (initializeDatabase emptyStore).order_items.length = 3 := by
  refine ⟨?_, by decide, by decide⟩
  intro h
  have h6 : (initializeDatabase (initializeDatabase emptyStore)).order_items.length = 6 := by
    decide
  have h3 : (initializeDatabase emptyStore).order_items.length = 3 := by decide
  rw [h, h3] at h6
  exact absurd h6 (by decide)

/-- C8 (amended claim): a second run of the startup sequence on any store
skips all four table creations and all keyed seed inserts (`customers`,
`products`, `orders` are unchanged), but appends the three `order_items`
seed rows again, because that table declares no key for `INSERT OR IGNORE`
to conflict on. -/
theorem initializeDatabase_second_run (s : Store) :
    initializeDatabase (initializeDatabase s) =
      { initializeDatabase s with
        order_items := (initializeDatabase s).order_items ++ seedOrderItems } := by
  obtain ⟨h1, h2, h3, h4⟩ := initializeDatabase_tables_exist s
  obtain ⟨hc, hp, ho⟩ := initializeDatabase_seeds_present s
  exact initializeDatabase_of_initialized (initializeDatabase s) h1 h2 h3 h4 hc hp ho

/-! Theorems about `extractSql` and `suggestChartType`. -/

/-- C2 counterexample: on the text `SELECT a FROM b` the extractor does not
return `SELECT a FROM b`: the inline pattern `SELECT .*?FROM` ends at
`FROM`, so the table name is not part of the match. -/
theorem extractSql_inline_not_whole_text :
    extractSql (strToL "SELECT a FROM b") ≠ some (strToL "SELECT a FROM b") := by
  decide

/-- C2 (amended claim): when no fenced block matches, fallback 2 returns the
entire matched substring of the case-insensitive non-greedy pattern
`SELECT .*?FROM`, exactly as matched; since the pattern ends at `FROM`,
the match excludes the table name, so text containing only inline
`SELECT a FROM b` yields `SELECT a FROM`. -/
theorem extractSql_inline_whole_match :
    (fencedMatch (strToL "SELECT a FROM b") = none ∧
     selectMatch (strToL "SELECT a FROM b") = some (strToL "SELECT a FROM") ∧
     extractSql (strToL "SELECT a FROM b") = some (strToL "SELECT a FROM")) ∧
    (∀ s r, fencedMatch s = none → selectMatch s = some r →
      extractSql s = some r) := by
  refine ⟨by decide, ?_⟩
  intro s r hf hs
  have hne : s ≠ [] := by
    intro h
    rw [h] at hs
    simp [selectMatch] at hs
  simp [extractSql, hne, hf, hs]

/-- C2 witness: the general fallback clause applied at a concrete text. -/
theorem extractSql_inline_whole_match_witness :
    extractSql (strToL "use SELECT x FROM t please") = some (strToL "SELECT x FROM") :=
  extractSql_inline_whole_match.2 _ _ (by decide) (by decide)

/-- C6 counterexample: the text consisting only of a fenced sql block with
empty interior does contain a labeled fenced block, yet the extractor does
not return its (empty) interior verbatim. -/
theorem extractSql_fenced_empty_interior_cex :
    fencedMatch (strToL "```sql\n\n```") =
      some (strToL "```sql\n\n```", ([] : List Char)) ∧
    extractSql (strToL "```sql\n\n```") ≠ some ([] : List Char) := by
  decide

/-- C6 (amended claim): the fenced form takes priority over the inline form
and its interior is returned verbatim whenever the interior is nonempty (an
empty interior yields the whole fenced match instead, see C9); if neither
pattern matches, nothing is returned; the fenced example yields exactly
`SELECT 1`. -/
theorem extractSql_fenced_spec :
    (extractSql (strToL "```sql\nSELECT 1\n```") = some (strToL "SELECT 1")) ∧
    (∀ s w g, fencedMatch s = some (w, g) → g ≠ [] → extractSql s = some g) ∧
    (∀ s, fencedMatch s = none → selectMatch s = none → extractSql s = none) := by
  refine ⟨by decide, ?_, ?_⟩
  · intro s w g hm hg
    have hne : s ≠ [] := by
      intro h
      rw [h] at hm
      simp [fencedMatch] at hm
    simp [extractSql, hne, hm, hg]
  · intro s hm hsel
    by_cases hne : s = []
    · rw [hne]
      decide
    · simp [extractSql, hne, hm, hsel]

/-- C6 witness: the priority clause applied to a text holding both a fenced
block and an inline fragment, and the no-match clause at a plain text. -/
theorem extractSql_fenced_spec_witness :
    extractSql (strToL "SELECT a FROM b ```sql\nSELECT 2\n```") = some (strToL "SELECT 2") ∧
    extractSql (strToL "no query here") = none :=
  ⟨extractSql_fenced_spec.2.1 _ (strToL "```sql\nSELECT 2\n```") _ (by decide) (by decide),
   extractSql_fenced_spec.2.2 _ (by decide) (by decide)⟩

/-- C9: for a fenced sql block with empty interior, the empty captured group
is falsy, so `sqlMatch[1] || sqlMatch[0]` yields the whole fenced match
including the backtick fences, not the empty interior. -/
theorem extractSql_empty_group_returns_whole :
    fencedMatch (strToL "```sql\n\n```") =
      some (strToL "```sql\n\n```", ([] : List Char)) ∧
    extractSql (strToL "```sql\n\n```") = some (strToL "```sql\n\n```") ∧
    extractSql (strToL "```sql\n\n```") ≠ some ([] : List Char) := by
  decide

/-- C4: the chart-type heuristic is case-sensitive first-match-wins keyword
matching in the fixed priority trend, compare, percentage or proportion,
default bar; the four spec examples evaluate accordingly, and any text
containing none of the keywords maps to bar. -/
theorem suggestChartType_spec :
    (∀ t : List Char,
      suggestChartType t =
        if containsSub (strToL "trend") t then strToL "line"
        else if containsSub (strToL "compare") t then strToL "bar"
        else if containsSub (strToL "percentage") t ||
                containsSub (strToL "proportion") t then strToL "pie"
        else strToL "bar") ∧
    suggestChartType (strToL "Sales show an upward trend") = strToL "line" ∧
    suggestChartType (strToL "Let\x27s compare Q1 and Q2") = strToL "bar" ∧
    suggestChartType (strToL "Electronics account for 40% proportion of sales") = strToL "pie" ∧
    suggestChartType (strToL "UPWARD TREND") = strToL "bar" ∧
    (∀ t : List Char,
      containsSub (strToL "trend") t = false →
      containsSub (strToL "compare") t = false →
      containsSub (strToL "percentage") t = false →
      containsSub (strToL "proportion") t = false →
      suggestChartType t = strToL "bar") := by
  refine ⟨?_, by decide, by decide, by decide, by decide, ?_⟩
  · intro t
    by_cases h : t = []
    · rw [h]
      decide
    · simp [suggestChartType, h]
  · intro t h1 h2 h3 h4
    by_cases h : t = []
    · rw [h]
      decide
    · simp [suggestChartType, h, h1, h2, h3, h4]

/-- C4 witness: the keyword-free clause applied at a concrete text. -/
theorem suggestChartType_spec_witness :
    suggestChartType (strToL "nothing notable here") = strToL "bar" :=
  suggestChartType_spec.2.2.2.2.2 _ (by decide) (by decide) (by decide) (by decide)

/-! Theorems about the `/api/analyze` handler. -/

/-- C5: whenever the question is absent or its trimmed length is below 3,
the handler answers 400 with the fixed validation message, and neither
completion call, nor the catalog read, nor a query execution occurs. -/
theorem analyze_validation_reject (env : Env) (question : Option (List Char))
    (h : question = none ∨ ∃ q, question = some q ∧ (jsTrim q).length < 3) :
    handleAnalyze env question =
      some ⟨⟨400, RespBody.err validationMsg none⟩, false, false, false, false⟩ := by
  have hv : validationFails question = true := by
    rcases h with h | ⟨q, hq, hlen⟩
    · rw [h]
      rfl
    · rw [hq]
      simp [validationFails, hlen]
  simp [handleAnalyze, hv]

/-- C5 witness: a two-character question is rejected with no calls made. -/
theorem analyze_validation_reject_witness :
    handleAnalyze
      ⟨false, [], Except.ok [], fun _ => Except.ok [], Except.ok []⟩
      (some (strToL "hi")) =
      some ⟨⟨400, RespBody.err validationMsg none⟩, false, false, false, false⟩ :=
  analyze_validation_reject _ _ (Or.inr ⟨strToL "hi", rfl, by decide⟩)

/-- C1: when the SQL-generation completion text contains the refusal
sentinel, the handler answers 200 with the raw completion text as
`insights`, empty `data`, null `sql` and null `chartType`, and neither the
query execution nor the insight-generation call happens. -/
theorem analyze_refusal_short_circuit (env : Env) (q t : List Char)
    (sc : List SchemaEntry)
    (hv : validationFails (some q) = false)
    (hs : getSchemaInfo env.storeTables = some sc)
    (hc : env.sqlCompletion = Except.ok t)
    (hr : containsSub refusalSentinel t = true) :
    handleAnalyze env (some q) =
      some ⟨⟨200, RespBody.ok ⟨none, [], t, none⟩⟩, true, true, false, false⟩ := by
  simp [handleAnalyze, hv, hs, hc, hr]

/-- C1 witness: a concrete refusal completion short-circuits the pipeline. -/
theorem analyze_refusal_short_circuit_witness :
    handleAnalyze
      ⟨false, [⟨strToL "customers", [⟨strToL "id", strToL "TEXT"⟩]⟩],
       Except.ok (strToL "Please ask about sales, products, or customers."),
       fun _ => Except.ok [], Except.ok (strToL "fine")⟩
      (some (strToL "what is the weather")) =
      some ⟨⟨200, RespBody.ok
              ⟨none, [], strToL "Please ask about sales, products, or customers.", none⟩⟩,
            true, true, false, false⟩ :=
  analyze_refusal_short_circuit _ _ _
    [⟨strToL "customers", [⟨strToL "id", strToL "TEXT"⟩]⟩]
    (by decide) (by decide) rfl (by decide)

/-- C3: when the extracted candidate SQL is absent, or present but without
the case-insensitive substring select, the store is never queried; the 200
response carries an empty `data` array, and indeed every response sent in
this situation has `storeQueried = false`. -/
theorem analyze_no_select_skips_store (env : Env) (q t : List Char)
    (sc : List SchemaEntry)
    (hv : validationFails (some q) = false)
    (hs : getSchemaInfo env.storeTables = some sc)
    (hc : env.sqlCompletion = Except.ok t)
    (hr : containsSub refusalSentinel t = false)
    (hx : extractSql t = none ∨
          ∃ s, extractSql t = some s ∧ hasSelectCI s = false) :
    (∀ ins, env.insightCompletion = Except.ok ins →
      handleAnalyze env (some q) =
        some ⟨⟨200, RespBody.ok ⟨extractSql t, [], ins, some (suggestChartType ins)⟩⟩,
              true, true, false, true⟩) ∧
    (∀ r, handleAnalyze env (some q) = some r → r.storeQueried = false) := by
  have hexec : execQuery env (extractSql t) = Except.ok [] := by
    rcases hx with h | ⟨s, h, hsel⟩
    · simp [execQuery, h]
    · simp [execQuery, h, hsel]
  have hse : shouldExecute (extractSql t) = false := by
    rcases hx with h | ⟨s, h, hsel⟩
    · simp [shouldExecute, h]
    · simp [shouldExecute, h, hsel]
  constructor
  · intro ins hi
    simp [handleAnalyze, hv, hs, hc, hr, hexec, hse, hi]
  · intro r hres
    rcases hins : env.insightCompletion with e | ins
    · simp [handleAnalyze, hv, hs, hc, hr, hexec, hse, hins] at hres
      rw [← hres]
    · simp [handleAnalyze, hv, hs, hc, hr, hexec, hse, hins] at hres
      rw [← hres]

/-- C3 witness: a completion with no SQL at all yields 200 with empty data
and no store query. -/
theorem analyze_no_select_skips_store_witness :
    handleAnalyze
      ⟨false, [⟨strToL "customers", [⟨strToL "id", strToL "TEXT"⟩]⟩],
       Except.ok (strToL "I cannot answer that."),
       fun _ => Except.ok [], Except.ok (strToL "All good.")⟩
      (some (strToL "tell me something")) =
      some ⟨⟨200, RespBody.ok ⟨none, [], strToL "All good.", some (strToL "bar")⟩⟩,
            true, true, false, true⟩ :=
  (analyze_no_select_skips_store _ _ (strToL "I cannot answer that.")
    [⟨strToL "customers", [⟨strToL "id", strToL "TEXT"⟩]⟩]
    (by decide) (by decide) rfl (by decide)
    (Or.inl (by decide))).1 (strToL "All good.") rfl

/-- C7: when the store rejects the generated SQL, the handler answers 500
whose error field is the generic message Error executing query; the
response is one fixed value whatever the rejected error was, so the
underlying store error never reaches the caller (dev mode only adds the
stack of the generic replacement error). -/
theorem analyze_store_error_generic (env : Env) (q t s : List Char)
    (sc : List SchemaEntry) (e : JsError)
    (hv : validationFails (some q) = false)
    (hs : getSchemaInfo env.storeTables = some sc)
    (hc : env.sqlCompletion = Except.ok t)
    (hr : containsSub refusalSentinel t = false)
    (hx : extractSql t = some s)
    (hsel : hasSelectCI s = true)
    (he : env.storeExec s = Except.error e) :
    handleAnalyze env (some q) =
      some ⟨⟨500, RespBody.err (strToL "Error executing query")
              (if env.devMode then some (strToL "Error: Error executing query")
               else none)⟩,
            true, true, true, false⟩ := by
  have hexec : execQuery env (extractSql t) = Except.error queryExecError := by
    simp [execQuery, hx, hsel, he]
  have hse : shouldExecute (extractSql t) = true := by
    simp [shouldExecute, hx, hsel]
  simp [handleAnalyze, hv, hs, hc, hr, hexec, hse, fault500, queryExecError]

/-- C7 witness: a concrete store error with its own message produces the
fixed generic 500 response, with no trace of that message. -/
theorem analyze_store_error_generic_witness :
    handleAnalyze
      ⟨false, [⟨strToL "customers", [⟨strToL "id", strToL "TEXT"⟩]⟩],
       Except.ok (strToL "```sql\nSELECT * FROM nosuch\n```"),
       fun _ => Except.error ⟨strToL "SQLITE_ERROR: no such table: nosuch",
                              strToL "internal stack"⟩,
       Except.ok (strToL "fine")⟩
      (some (strToL "sales by region")) =
      some ⟨⟨500, RespBody.err (strToL "Error executing query") none⟩,
            true, true, true, false⟩ :=
  analyze_store_error_generic _ _ _ (strToL "SELECT * FROM nosuch")
    [⟨strToL "customers", [⟨strToL "id", strToL "TEXT"⟩]⟩]
    ⟨strToL "SQLITE_ERROR: no such table: nosuch", strToL "internal stack"⟩
    (by decide) (by decide) rfl (by decide) (by decide) (by decide) rfl

/-- C10: when the store catalog lists zero tables, the promise of
`getSchemaInfo` never settles (the per-table counter comparison never
runs), so a validated request to `/api/analyze` never receives any
response. -/
theorem analyze_empty_catalog_never_responds (env : Env) (q : List Char)
    (hv : validationFails (some q) = false)
    (ht : env.storeTables = []) :
    getSchemaInfo env.storeTables = none ∧
    handleAnalyze env (some q) = none := by
  have hnone : getSchemaInfo env.storeTables = none := by
    rw [ht]
    rfl
  refine ⟨hnone, ?_⟩
  simp [handleAnalyze, hv, hnone]

/-- C10 witness: with an empty catalog a well-formed question gets no
response at all. -/
theorem analyze_empty_catalog_never_responds_witness :
    getSchemaInfo ([] : List TableMeta) = none ∧
    handleAnalyze
      ⟨false, [], Except.ok (strToL "hello"), fun _ => Except.ok [],
       Except.ok (strToL "hello")⟩
      (some (strToL "total sales by region")) = none :=
  analyze_empty_catalog_never_responds
    ⟨false, [], Except.ok (strToL "hello"), fun _ => Except.ok [],
     Except.ok (strToL "hello")⟩
    (strToL "total sales by region") (by decide) rfl

end VercelBackend
